import Mathlib

/-!
Verification development for the puzzle generator core of
`brianch/lichess-puzzler` (`generator/generator.py`).

The chess rules engine (python-chess boards/game nodes) and the external
UCI engine are external capabilities per the design document; they are
modelled as oracle fields of an `Env` structure.  Positions (`Node`) are
identified by the path of moves from the game start, and the mutable PGN
game tree touched by `node.add_main_variation` is modelled by explicit
state passing of a mutation log (`TreeLog`), so that the deep-copy
isolation performed by `analyze_position` is visible in the embedding.

Machine integers of the source are modelled as `Int`/`Nat` (no overflow is
possible in the source ranges), and the float win-chance scale is modelled
by exact fraction arithmetic (`WinChance`).  Functions of the repository
that are not part of the single source file (`util.py`, `model.py`,
`server.py`) are modelled from the spec and marked as such.
-/

/-- A move is an opaque handle from the rules capability. -/
abbrev Move := Nat

/-- A chess color; `true` plays the role of WHITE, `false` of BLACK. -/
abbrev Color := Bool

/-- A position is identified by the path of moves leading to it from the
start of the game (the rules capability is keyed on it). -/
abbrev Node := List Move

/-- Engine score: centipawns or signed mate distance, exactly the two
constructors of `chess.engine.Cp` / `chess.engine.Mate`. -/
inductive Score where
  | cp (v : Int)
  | mate (v : Int)
deriving DecidableEq

/-- The comparison key of python-chess `Score._score_tuple`, restricted to
`Cp`/`Mate`: positive mates above all centipawn scores, centipawn scores
above negative mates; among mates, `-m` orders them. -/
def Score.key : Score → Int × Int
  | .mate m => (if 0 < m then 2 else 0, -m)
  | .cp v => (1, v)

/-- Strict comparison of scores: lexicographic on `Score.key`, as in
python-chess `Score.__lt__`. -/
def Score.blt (a b : Score) : Bool :=
  a.key.1 < b.key.1 || (a.key.1 == b.key.1 && a.key.2 < b.key.2)

/-- Non-strict comparison of scores (`Score.__le__`): the key is injective,
so it is the strict order or equality. -/
def Score.ble (a b : Score) : Bool :=
  a.blt b || a == b

/-- Negation of a score (`Score.__neg__`): flips the perspective. -/
def Score.neg : Score → Score
  | .cp v => .cp (-v)
  | .mate m => .mate (-m)

/-- `Score.score()`: the centipawn value, absent for mate scores. -/
def Score.score? : Score → Option Int
  | .cp v => some v
  | .mate _ => none

/-- `chess.engine.PovScore`: a relative score together with the side it is
relative to. -/
structure PovScore where
  relative : Score
  turn : Color
deriving DecidableEq

/-- `PovScore.pov(color)`: the relative score seen from `color`. -/
def PovScore.pov (ps : PovScore) (c : Color) : Score :=
  if ps.turn == c then ps.relative else ps.relative.neg

/-- The fixed mate-soon horizon `mate_soon = Mate(15)` of `generator.py`. -/
def mate_soon : Score := Score.mate 15

/-- An exact rational win-probability value `num / den` with a positive
denominator; the float scale of the source is modelled by exact fraction
arithmetic. -/
structure WinChance where
  num : Int
  den : Int
deriving DecidableEq

/-- Fraction comparison `a < b` by cross multiplication (denominators are
positive for every value built in this development). -/
def WinChance.lt (a b : WinChance) : Bool :=
  decide (a.num * b.den < b.num * a.den)

/-- Fraction comparison `a ≤ b` by cross multiplication. -/
def WinChance.le (a b : WinChance) : Bool :=
  decide (a.num * b.den ≤ b.num * a.den)

/-- Exact fraction addition. -/
def WinChance.add (a b : WinChance) : WinChance :=
  ⟨a.num * b.den + b.num * a.den, a.den * b.den⟩

/-- Modelled from the spec: `win_chances` of the missing `util.py`
(ScoreMetrics, §4.1): a pure bounded win-probability-like value in
`(-1, 1)`, saturating to `±1` on mate scores with the sign of the favored
side, and a monotone sign-symmetric saturating curve through the origin on
centipawn scores (here `c / (|c| + 368)`, matching the saturation scale of
the source's sigmoid). -/
def win_chances : Score → WinChance
  | .mate m => if 0 < m then ⟨1, 1⟩ else ⟨-1, 1⟩
  | .cp c => ⟨c, |c| + 368⟩

/-- Modelled from the spec: `EngineMove` of the missing `model.py` — a
candidate move with its score from the favored color's perspective. -/
structure EngineMove where
  move : Move
  score : Score
deriving DecidableEq

/-- Modelled from the spec: `NextMovePair` of the missing `model.py` — the
top two engine lines at a position; `second` is absent when fewer than two
candidates exist. -/
structure NextMovePair where
  node : Node
  winner : Color
  best : EngineMove
  second : Option EngineMove
deriving DecidableEq

/-- Modelled from the spec: `Puzzle` of the missing `model.py` — starting
position, ordered move sequence, integer rating. -/
structure Puzzle where
  node : Node
  moves : List Move
  cp : Int
deriving DecidableEq

/-- The external capabilities consumed by the core (§6): the chess rules
collaborator, the UCI engine, the material helpers of the missing
`util.py` and the deduplication server, all keyed on position paths. -/
structure Env where
  /-- `engine.analyse(board, multipv=2, limit=pair_limit)`: best and
  optional second line, scores already taken from the favored color's
  perspective. -/
  analyse2 : Node → Color → EngineMove × Option EngineMove
  /-- `engine.analyse(board, multipv=5, limit=pair_limit)`: the scores
  of up to five ranked lines, from the favored color's perspective. -/
  analyse5 : Node → Color → List Score
  /-- `engine.play(board, limit=mate_defense_limit)`: a single best
  reply, absent when the engine yields no move. -/
  play : Node → Option Move
  /-- `board.turn`. -/
  turn : Node → Color
  /-- `board.legal_moves.count()`. -/
  legal_count : Node → Nat
  /-- `board.is_game_over()`. -/
  game_over : Node → Bool
  /-- `board.is_repetition(2)`: the position occurred at least once
  before. -/
  is_repetition : Node → Bool
  /-- `server.is_seen_pos(node)` (deduplication collaborator). -/
  is_seen_pos : Node → Bool
  /-- Modelled from the spec: `is_up_in_material` of the missing
  `util.py`. -/
  up_in_material : Node → Color → Bool
  /-- Modelled from the spec: `material_diff` of the missing `util.py`. -/
  material_diff : Node → Color → Int
  /-- `board.epd()`: the canonical position key, abstracted to `Nat`. -/
  epd : Node → Nat
  /-- `board.is_irreversible(move)`. -/
  is_irreversible : Node → Move → Bool
  /-- Modelled from the spec: whether
  `board.castling_rights == maximum_castling_rights(board)` (the helper
  lives in the missing `util.py`). -/
  castling_ok : Node → Bool

/-- Modelled from the spec: `get_next_move_pair` of the missing `util.py`
(MovePairProber, §4.2): package the top two engine lines as a
`NextMovePair` for the favored color. -/
def get_next_move_pair (env : Env) (node : Node) (winner : Color) : NextMovePair :=
  let r := env.analyse2 node winner
  ⟨node, winner, r.1, r.2⟩

/-- `Generator.is_valid_mate_in_one` of `generator.py` (lines 36-50). -/
def is_valid_mate_in_one (env : Env) (pair : NextMovePair) : Bool :=
  if pair.best.score ≠ Score.mate 1 then false
  else
    match pair.second with
    | none => true
    | some second =>
      if (win_chances second.score).le ⟨3, 5⟩ then true
      else if second.score = Score.mate 1 then
        !((env.analyse5 pair.node pair.winner).any
            (fun s => s.blt (Score.mate 1) && WinChance.lt ⟨3, 5⟩ (win_chances s)))
      else false

/-- `Generator.is_valid_attack` of `generator.py` (lines 53-58). -/
def is_valid_attack (env : Env) (pair : NextMovePair) : Bool :=
  pair.second.isNone || is_valid_mate_in_one env pair ||
    (match pair.second with
     | some s => ((win_chances s.score).add ⟨7, 10⟩).lt (win_chances pair.best.score)
     | none => false)

/-- `Generator.get_next_pair` of `generator.py` (lines 60-65). -/
def get_next_pair (env : Env) (node : Node) (winner : Color) : Option NextMovePair :=
  let pair := get_next_move_pair env node winner
  if env.turn node == winner && !(is_valid_attack env pair) then none
  else some pair

/-- `Generator.get_next_move` of `generator.py` (lines 67-69). -/
def get_next_move (env : Env) (node : Node) : Option Move :=
  env.play node

/-- The log of `node.add_main_variation(move)` mutations performed on a
PGN game tree: the state component threaded through the speculative
search.  `copy.deepcopy(node)` hands the cooking procedures an independent
copy of the tree, so their log is discarded by the caller. -/
abbrev TreeLog := List (Node × Move)

/-- `node.add_main_variation(move)`: records the mutation of the game tree
and returns the child position. -/
def add_main_variation (t : TreeLog) (node : Node) (m : Move) : TreeLog × Node :=
  ((node, m) :: t, node ++ [m])

/-- `Generator.cook_mate` of `generator.py` (lines 71-97).  The `Nat`
argument is the remaining recursion budget (Python's recursion limit);
the outer `none` models a `RecursionError`, the inner option is the
source's `Optional[List[Move]]`. -/
def cook_mate (env : Env) : Nat → TreeLog → Node → Color → TreeLog × Option (Option (List Move))
  | 0, t, _, _ => (t, none)
  | fuel+1, t, node, winner =>
    if env.game_over node then (t, some (some []))
    else
      let step : Option Move :=
        if env.turn node == winner then
          match get_next_pair env node winner with
          | none => none
          | some pair =>
            if pair.best.score.blt mate_soon then none
            else some pair.best.move
        else get_next_move env node
      match step with
      | none => (t, some none)
      | some move =>
        let r := add_main_variation t node move
        match cook_mate env fuel r.1 r.2 winner with
        | (t2, none) => (t2, none)
        | (t2, some none) => (t2, some none)
        | (t2, some (some tail)) => (t2, some (some (move :: tail)))

/-- `Generator.cook_advantage` of `generator.py` (lines 100-120), with the
same recursion-budget convention as `cook_mate`. -/
def cook_advantage (env : Env) : Nat → TreeLog → Node → Color → TreeLog × Option (Option (List NextMovePair))
  | 0, t, _, _ => (t, none)
  | fuel+1, t, node, winner =>
    if env.is_repetition node then (t, some none)
    else
      match get_next_pair env node winner with
      | none => (t, some (some []))
      | some pair =>
        if pair.best.score.blt (Score.cp 200) then (t, some none)
        else
          let r := add_main_variation t node pair.best.move
          match cook_advantage env fuel r.1 r.2 winner with
          | (t2, none) => (t2, none)
          | (t2, some none) => (t2, some none)
          | (t2, some (some tail)) => (t2, some (some (pair :: tail)))

/-- Iterations of the trimming loop of `Generator.analyze_position`
(lines 213-216), structurally recursive on an iteration budget that
`trim` instantiates with the list length (the loop removes one element
per iteration, so the budget is exact and the middle case with an
exhausted budget on a non-empty list is unreachable).  On the empty list
the condition `len(solution) % 2 == 0` short-circuits to true and the
loop body's `solution[-1]` raises `IndexError`, modelled by `none`. -/
def trimAux : Nat → List NextMovePair → Option (List NextMovePair)
  | _, [] => none
  | 0, _ :: _ => none
  | n+1, p :: l =>
    if (p :: l).length % 2 == 0 || ((p :: l).getLast (List.cons_ne_nil p l)).second.isNone
    then trimAux n (p :: l).dropLast
    else some (p :: l)

/-- The trimming loop of `Generator.analyze_position` (lines 213-216):
`while len(solution) % 2 == 0 or not solution[-1].second: solution = solution[:-1]`. -/
def trim (s : List NextMovePair) : Option (List NextMovePair) :=
  trimAux s.length s

/-- The mate-probing block of `Generator.analyze_position` (lines
191-199): consult the deduplication server, cook the mate on a deep copy
of the node (whose mutation log is therefore dropped), and either reject
(score) or emit the mate puzzle with the maximal rating sentinel. -/
def mate_branch (env : Env) (fuel : Nat) (t : TreeLog) (node : Node)
    (winner : Color) (score : Score) (tier : Int) : TreeLog × Option (Puzzle ⊕ Score) :=
  if env.is_seen_pos node then (t, some (Sum.inr score))
  else
    match (cook_mate env fuel t node winner).2 with
    | none => (t, none)
    | some none => (t, some (Sum.inr score))
    | some (some sol) =>
      if tier == 1 && sol.length == 3 then (t, some (Sum.inr score))
      else (t, some (Sum.inl ⟨node, sol, 999999999⟩))

/-- The advantage-probing block of `Generator.analyze_position` (lines
201-224): reject unclear swings, consult deduplication, cook the
advantage on a deep copy of the node, trim trailing only-move pairs, and
either reject (score), raise (`none`, from the trim loop), or emit the
puzzle rated by the final pair's centipawn value. -/
def advantage_branch (env : Env) (fuel : Nat) (t : TreeLog) (node : Node)
    (winner : Color) (score : Score) (tier : Int) : TreeLog × Option (Puzzle ⊕ Score) :=
  if score.blt (Score.cp 400) && env.material_diff node winner > -1 then (t, some (Sum.inr score))
  else if env.is_seen_pos node then (t, some (Sum.inr score))
  else
    match (cook_advantage env fuel t node winner).2 with
    | none => (t, none)
    | some none => (t, some (Sum.inr score))
    | some (some sol) =>
      if sol.isEmpty then (t, some (Sum.inr score))
      else
        match trim sol with
        | none => (t, none)
        | some trimmed =>
          if trimmed.isEmpty || trimmed.length == 1 then (t, some (Sum.inr score))
          else if tier < 3 && trimmed.length == 3 then (t, some (Sum.inr score))
          else
            match trimmed.getLast? with
            | none => (t, none)
            | some lastPair =>
              (t, some (Sum.inl ⟨node, trimmed.map (fun p => p.best.move),
                (lastPair.best.score.score?).getD 999999998⟩))

/-- `Generator.analyze_position` of `generator.py` (lines 169-226).  The
result's first component is the game tree the caller keeps using (cooking
runs on `copy.deepcopy(node)`, so the log produced by the cooking
procedures belongs to the copy and is dropped); `none` in the second
component models an uncaught exception. -/
def analyze_position (env : Env) (fuel : Nat) (t : TreeLog) (node : Node)
    (prev_score : Score) (current_eval : PovScore) (tier : Int) :
    TreeLog × Option (Puzzle ⊕ Score) :=
  let winner := env.turn node
  let score := current_eval.pov winner
  if env.legal_count node < 2 then (t, some (Sum.inr score))
  else if (Score.cp 300).blt prev_score && score.blt mate_soon then (t, some (Sum.inr score))
  else if env.up_in_material node winner then (t, some (Sum.inr score))
  else if (Score.mate 1).ble score && tier < 3 then (t, some (Sum.inr score))
  else if mate_soon.blt score then mate_branch env fuel t node winner score tier
  else if (Score.cp 200).ble score && ((win_chances prev_score).add ⟨3, 5⟩).lt (win_chances score) then
    advantage_branch env fuel t node winner score tier
  else (t, some (Sum.inr score))

/-- One ply of the source game record: the move played and the optional
`[%eval]` annotation (`node.eval()`). -/
structure Ply where
  move : Move
  eval : Option PovScore
deriving DecidableEq

/-- The loop of `Generator.analyze_game` (lines 132-166), walking the
remaining plies with the carried state: game tree log, `prev_score`, the
seen canonical keys `seen_epds`, the board path, and the
`skip_until_irreversible` flag.  The outer `none` of the result models an
uncaught exception, `some none` the source's `return None`. -/
def analyze_game_loop (env : Env) (fuel : Nat) (tier : Int) :
    List Ply → TreeLog → Score → List Nat → Node → Bool → Option (Option Puzzle)
  | [], _, _, _, _, _ => some none
  | ply :: rest, t, prev, seen, board, skip =>
    if skip && !(env.is_irreversible board ply.move) then
      analyze_game_loop env fuel tier rest t prev seen (board ++ [ply.move]) true
    else
      -- when the skip flag was set, this ply is irreversible: clear the seen set
      let seen1 := if skip then [] else seen
      match ply.eval with
      | none => some none
      | some current_eval =>
        let board2 := board ++ [ply.move]
        if env.epd board2 ∈ seen1 then
          analyze_game_loop env fuel tier rest t prev seen1 board2 true
        else
          let seen2 := env.epd board2 :: seen1
          if !(env.castling_ok board2) then
            analyze_game_loop env fuel tier rest t prev seen2 board2 false
          else
            match analyze_position env fuel t board2 prev current_eval tier with
            | (_, none) => none
            | (_, some (Sum.inl puzzle)) => some (some puzzle)
            | (t2, some (Sum.inr score)) =>
              analyze_game_loop env fuel tier rest t2 score.neg seen2 board2 false

/-- `Generator.analyze_game` of `generator.py` (lines 123-166):
`prev_score` starts at `Cp(20)`, the seen set empty, the board at the
game's start, and the skip flag off. -/
def analyze_game (env : Env) (fuel : Nat) (game : List Ply) (tier : Int) :
    Option (Option Puzzle) :=
  analyze_game_loop env fuel tier game [] (Score.cp 20) [] [] false

/-- Whether a score delivers mate for the favored side (a positive mate
distance); the spec's notion of a "mating" line. -/
def Score.mating : Score → Bool
  | .mate m => decide (0 < m)
  | .cp _ => false

/-- Whether none of the moves of a block of plies, applied in order from
`board`, is irreversible for the rules capability. -/
def all_reversible (env : Env) : Node → List Ply → Bool
  | _, [] => true
  | b, p :: ps => !(env.is_irreversible b p.move) && all_reversible env (b ++ [p.move]) ps

/-- A baseline oracle assignment used to build concrete scenarios. -/
def env0 : Env where
  analyse2 := fun _ _ => (⟨0, Score.cp 0⟩, none)
  analyse5 := fun _ _ => []
  play := fun _ => none
  turn := fun _ => true
  legal_count := fun _ => 0
  game_over := fun _ => false
  is_repetition := fun _ => false
  is_seen_pos := fun _ => false
  up_in_material := fun _ _ => false
  material_diff := fun _ _ => 0
  epd := fun _ => 0
  is_irreversible := fun _ _ => false
  castling_ok := fun _ => true

/-- Scenario: at `[3]` the engine offers a lone unrivalled +500cp move;
one ply later the probe is ambiguous (two near-equal quiet moves), so the
advantage cook stops cleanly after a single pair whose `second` is
absent. -/
def env1 : Env :=
  { env0 with
    analyse2 := fun n _ =>
      if n = [3] then (⟨4, Score.cp 500⟩, none)
      else (⟨6, Score.cp 100⟩, some ⟨7, Score.cp 90⟩)
    legal_count := fun _ => 5
    material_diff := fun _ _ => -5 }

/-- Scenario: the engine always reports a forced mate in one with no
runner-up; positions two plies deep are finished games and repetitions. -/
def env2 : Env :=
  { env0 with
    analyse2 := fun _ _ => (⟨5, Score.mate 1⟩, none)
    legal_count := fun _ => 5
    game_over := fun n => decide (2 ≤ n.length)
    is_repetition := fun n => decide (2 ≤ n.length) }

/-- Scenario for the game driver: the canonical key collides on the first
two plies (a transposition), move `4` is the only irreversible move,
castling rights are maximal only at `[1, 2, 3, 4]`, and the engine mates
in one everywhere; games five plies deep are over. -/
def env3 : Env :=
  { env0 with
    analyse2 := fun _ _ => (⟨9, Score.mate 1⟩, none)
    legal_count := fun _ => 5
    game_over := fun n => decide (5 ≤ n.length)
    epd := fun n => if n.length ≤ 2 then 0 else 100 + n.length
    is_irreversible := fun _ m => decide (m = 4)
    castling_ok := fun n => decide (n = [1, 2, 3, 4]) }

/-- A four-ply game record for `env3`: the third ply carries no `[%eval]`
annotation and is reached while the skip flag is set. -/
def game3 : List Ply :=
  [⟨1, some ⟨Score.cp 50, true⟩⟩, ⟨2, some ⟨Score.cp 50, true⟩⟩,
   ⟨3, none⟩, ⟨4, some ⟨Score.mate 5, true⟩⟩]

/-- Scenario: at the probed position both the best and the second line are
an immediate mate, and the five-line re-query reports a single further
line, a mate in two (every alternative mates). -/
def env7 : Env := { env0 with analyse5 := fun _ _ => [Score.mate 2] }

/-- Claim C9: every cooking invocation made by `analyze_position` runs on
an independent deep copy of the node, so the game tree of the enclosing
iteration (first component of the state) is returned unchanged whether
cooking succeeds, partially succeeds, fails, or overruns the recursion
budget. -/
theorem analyze_position_isolates_speculation (env : Env) (fuel : Nat) (t : TreeLog)
    (node : Node) (prev_score : Score) (current_eval : PovScore) (tier : Int) :
    (analyze_position env fuel t node prev_score current_eval tier).1 = t := by
  have hm : (mate_branch env fuel t node (env.turn node)
      (current_eval.pov (env.turn node)) tier).1 = t := by
    simp only [mate_branch]
    repeat' split
    all_goals rfl
  have ha : (advantage_branch env fuel t node (env.turn node)
      (current_eval.pov (env.turn node)) tier).1 = t := by
    simp only [advantage_branch]
    repeat' split
    all_goals rfl
  simp only [analyze_position]
  repeat' split
  all_goals first | rfl | exact hm | exact ha

/-- The cooking procedures themselves do mutate the game tree they are
given (`add_main_variation` grows it), so the isolation property above is
not vacuous: on `env2` the mate cook records a mutation. -/
theorem cook_mate_mutates_its_tree :
    cook_mate env2 9 [] [7] true = ([([7], 5)], some (some [5])) := rfl

/-- Claim C1: the spec states `analyze_position` always returns and never
raises, discarding an advantage solution that trims to the empty
sequence; in the code the trimming loop body indexes `solution[-1]` after
the list has become empty and raises `IndexError` instead (modelled by the
`none` result).  Here `cook_advantage` returns a single pair lacking a
`second` line, trimming empties the list, and `analyze_position` raises. -/
theorem analyze_position_trim_indexerror :
    cook_advantage env1 9 [] [3] true =
      ([([3], 4)], some (some [⟨[3], true, ⟨4, Score.cp 500⟩, none⟩])) ∧
    trim [⟨[3], true, ⟨4, Score.cp 500⟩, none⟩] = none ∧
    analyze_position env1 9 [] [3] (Score.cp 0) ⟨Score.cp 1000, true⟩ 10 = ([], none) :=
  ⟨rfl, rfl, rfl⟩

/-- Claim C6: `is_valid_attack` is true exactly when the pair has no
`second` line, or `is_valid_mate_in_one` holds, or the best line's win
chance exceeds the second line's win chance by more than `7/10`; in
particular it is true for every pair with an absent `second`. -/
theorem is_valid_attack_iff (env : Env) (pair : NextMovePair) :
    (is_valid_attack env pair = true ↔
      pair.second = none ∨ is_valid_mate_in_one env pair = true ∨
        ∃ s, pair.second = some s ∧
          ((win_chances s.score).add ⟨7, 10⟩).lt (win_chances pair.best.score) = true) ∧
    (pair.second = none → is_valid_attack env pair = true) := by
  constructor
  · cases hs : pair.second with
    | none => simp [is_valid_attack, hs]
    | some s => simp [is_valid_attack, hs]
  · intro h
    simp [is_valid_attack, h]

/-- Claim C6 witness: a concrete pair with an absent `second` is a valid
attack. -/
theorem is_valid_attack_iff_witness :
    is_valid_attack env0 ⟨[], true, ⟨0, Score.cp 0⟩, none⟩ = true :=
  (is_valid_attack_iff env0 ⟨[], true, ⟨0, Score.cp 0⟩, none⟩).2 rfl

/-- Claim C7 counterexample: the claim says the re-query path returns
false exactly when some non-mating alternative has win chance above 0.6;
here the best and second lines are both immediate mates, the re-query
reports a single alternative that itself mates (in two) — so no
non-mating alternative exists at all — and yet the code returns false,
because its test admits every line ranked below mate-in-one. -/
theorem is_valid_mate_in_one_counterexample :
    is_valid_mate_in_one env7 ⟨[2], true, ⟨1, Score.mate 1⟩, some ⟨2, Score.mate 1⟩⟩ = false ∧
    (env7.analyse5 [2] true).all Score.mating = true ∧
    ¬ ∃ x ∈ env7.analyse5 [2] true,
        Score.mating x = false ∧ WinChance.lt ⟨3, 5⟩ (win_chances x) = true := by
  refine ⟨rfl, rfl, ?_⟩
  decide

/-- Claim C7 (amended): `is_valid_mate_in_one` is false whenever the best
line is not an immediate mate; with a mate-in-one best line it is true
when `second` is absent or has win chance at most 0.6; when `second` is
itself an immediate mate it re-queries the engine and is false exactly
when some alternative line ranked below mate-in-one (slower mates
included) has win chance above 0.6; and with a `second` that has win
chance above 0.6 and is not an immediate mate it is false. -/
theorem is_valid_mate_in_one_characterization (env : Env) (pair : NextMovePair) :
    (pair.best.score ≠ Score.mate 1 → is_valid_mate_in_one env pair = false) ∧
    (pair.best.score = Score.mate 1 → pair.second = none →
      is_valid_mate_in_one env pair = true) ∧
    (∀ s, pair.best.score = Score.mate 1 → pair.second = some s →
      (win_chances s.score).le ⟨3, 5⟩ = true →
      is_valid_mate_in_one env pair = true) ∧
    (∀ s, pair.best.score = Score.mate 1 → pair.second = some s →
      (win_chances s.score).le ⟨3, 5⟩ = false → s.score = Score.mate 1 →
      (is_valid_mate_in_one env pair = false ↔
        ∃ x ∈ env.analyse5 pair.node pair.winner,
          x.blt (Score.mate 1) = true ∧ WinChance.lt ⟨3, 5⟩ (win_chances x) = true)) ∧
    (∀ s, pair.best.score = Score.mate 1 → pair.second = some s →
      (win_chances s.score).le ⟨3, 5⟩ = false → s.score ≠ Score.mate 1 →
      is_valid_mate_in_one env pair = false) := by
  refine ⟨?_, ?_, ?_, ?_, ?_⟩
  · intro h
    simp [is_valid_mate_in_one, h]
  · intro hb hs
    simp [is_valid_mate_in_one, hb, hs]
  · intro s hb hs hle
    simp [is_valid_mate_in_one, hb, hs, hle]
  · intro s hb hs hle hm1
    simp [is_valid_mate_in_one, hb, hs, hle, hm1, List.any_eq_true]
    intro x hx h1 h2
    decide
  · intro s hb hs hle hm1
    simp [is_valid_mate_in_one, hb, hs, hle, hm1]

/-- Claim C7 witness: a concrete pair whose best line mates in one with
no second line is a valid mate in one. -/
theorem is_valid_mate_in_one_characterization_witness :
    is_valid_mate_in_one env0 ⟨[], true, ⟨0, Score.mate 1⟩, none⟩ = true :=
  (is_valid_mate_in_one_characterization env0 ⟨[], true, ⟨0, Score.mate 1⟩, none⟩).2.1 rfl rfl

/-- Claim C4: `cook_advantage` fails (absence) on a repetition; otherwise
an invalid probe is a clean success with the empty continuation; and a
probed best score below +200 centipawns fails (absence). -/
theorem cook_advantage_terminations (env : Env) (fuel : Nat) (t : TreeLog)
    (node : Node) (winner : Color) :
    (env.is_repetition node = true →
      cook_advantage env (fuel+1) t node winner = (t, some none)) ∧
    (env.is_repetition node = false → get_next_pair env node winner = none →
      cook_advantage env (fuel+1) t node winner = (t, some (some []))) ∧
    (∀ pair, env.is_repetition node = false →
      get_next_pair env node winner = some pair →
      pair.best.score.blt (Score.cp 200) = true →
      cook_advantage env (fuel+1) t node winner = (t, some none)) := by
  refine ⟨?_, ?_, ?_⟩
  · intro h
    simp [cook_advantage, h]
  · intro h hp
    simp [cook_advantage, h, hp]
  · intro pair h hp hlt
    simp [cook_advantage, h, hp, hlt]

/-- Claim C4 witness: on `env1` one ply into the advantage line the probe
is invalid (two near-equal quiet replies), so the cook succeeds with the
empty continuation. -/
theorem cook_advantage_terminations_witness :
    cook_advantage env1 1 [] [3, 4] true = ([], some (some [])) :=
  (cook_advantage_terminations env1 0 [] [3, 4] true).2.1 rfl rfl

/-- Claim C5: `cook_mate` succeeds with the empty sequence on game-over
positions; on the favored side's turn it fails on an invalid probe or on
a best score that is not a mate within 15 plies (exactly mate-in-15
passes, since `Mate(15) < mate_soon` is false), and otherwise recurses on
the best move; on the defender's turn it fails exactly when the engine
yields no move and otherwise recurses on the reply; a successful
recursion prepends the chosen move, and any recursive failure (or
recursion-budget overrun) propagates. -/
theorem cook_mate_characterization (env : Env) (fuel : Nat) (t : TreeLog)
    (node : Node) (winner : Color) :
    (env.game_over node = true →
      cook_mate env (fuel+1) t node winner = (t, some (some []))) ∧
    (env.game_over node = false → env.turn node = winner →
      get_next_pair env node winner = none →
      cook_mate env (fuel+1) t node winner = (t, some none)) ∧
    (∀ pair, env.game_over node = false → env.turn node = winner →
      get_next_pair env node winner = some pair →
      pair.best.score.blt mate_soon = true →
      cook_mate env (fuel+1) t node winner = (t, some none)) ∧
    ((Score.mate 15).blt mate_soon = false) ∧
    (∀ pair, env.game_over node = false → env.turn node = winner →
      get_next_pair env node winner = some pair →
      pair.best.score.blt mate_soon = false →
      cook_mate env (fuel+1) t node winner =
        (match cook_mate env fuel ((node, pair.best.move) :: t)
            (node ++ [pair.best.move]) winner with
         | (t2, none) => (t2, none)
         | (t2, some none) => (t2, some none)
         | (t2, some (some tail)) => (t2, some (some (pair.best.move :: tail))))) ∧
    (env.game_over node = false → env.turn node ≠ winner →
      get_next_move env node = none →
      cook_mate env (fuel+1) t node winner = (t, some none)) ∧
    (∀ m, env.game_over node = false → env.turn node ≠ winner →
      get_next_move env node = some m →
      cook_mate env (fuel+1) t node winner =
        (match cook_mate env fuel ((node, m) :: t) (node ++ [m]) winner with
         | (t2, none) => (t2, none)
         | (t2, some none) => (t2, some none)
         | (t2, some (some tail)) => (t2, some (some (m :: tail))))) := by
  refine ⟨?_, ?_, ?_, rfl, ?_, ?_, ?_⟩
  · intro h
    simp [cook_mate, h]
  · intro hg ht hp
    simp [cook_mate, hg, ht, hp]
  · intro pair hg ht hp hlt
    simp [cook_mate, hg, ht, hp, hlt]
  · intro pair hg ht hp hlt
    simp [cook_mate, hg, ht, hp, hlt, add_main_variation]
  · intro hg ht hp
    rw [get_next_move] at hp
    simp [cook_mate, get_next_move, hg, beq_eq_false_iff_ne, ht, hp]
  · intro m hg ht hp
    rw [get_next_move] at hp
    simp [cook_mate, get_next_move, hg, beq_eq_false_iff_ne, ht, hp, add_main_variation]

/-- Claim C5 witness: a game-over position cooks to the empty mate
sequence. -/
theorem cook_mate_characterization_witness :
    cook_mate env2 1 [] [0, 0] true = ([], some (some [])) :=
  (cook_mate_characterization env2 0 [] [0, 0] true).1 rfl

/-- Claim C10: every pair of a sequence returned by `cook_advantage` was
retained only after its best-line score passed the +200 centipawn check,
so no retained pair's best score is below the decisive threshold. -/
theorem cook_advantage_retained_pairs (env : Env) :
    ∀ (fuel : Nat) (t : TreeLog) (node : Node) (winner : Color) (t2 : TreeLog)
      (sol : List NextMovePair),
      cook_advantage env fuel t node winner = (t2, some (some sol)) →
      ∀ p ∈ sol, p.best.score.blt (Score.cp 200) = false := by
  intro fuel
  induction fuel with
  | zero =>
    intro t node winner t2 sol h
    simp [cook_advantage] at h
  | succ n ih =>
    intro t node winner t2 sol h
    by_cases hr : env.is_repetition node = true
    · simp [cook_advantage, hr] at h
    · rw [Bool.not_eq_true] at hr
      cases hp : get_next_pair env node winner with
      | none =>
        simp [cook_advantage, hr, hp] at h
        rcases h with ⟨-, h2⟩
        subst h2
        intro p hmem
        simp at hmem
      | some pair =>
        by_cases hlt : pair.best.score.blt (Score.cp 200) = true
        · simp [cook_advantage, hr, hp, hlt] at h
        · rw [Bool.not_eq_true] at hlt
          rcases hrec : cook_advantage env n ((node, pair.best.move) :: t)
            (node ++ [pair.best.move]) winner with ⟨t3, r⟩
          simp only [cook_advantage, hr, hp, hlt, add_main_variation] at h
          rw [hrec] at h
          match r with
          | none => simp at h
          | some none => simp at h
          | some (some tail) =>
            simp at h
            rcases h with ⟨-, hsol⟩
            subst hsol
            intro p hmem
            rcases List.mem_cons.mp hmem with hph | hmem2
            · rw [hph]
              exact hlt
            · exact ih _ _ _ _ _ hrec p hmem2

/-- Claim C10 witness: the single pair of the sequence cooked on `env1`
carries a +500 centipawn best line, which is not below +200. -/
theorem cook_advantage_retained_pairs_witness :
    (⟨[3], true, ⟨4, Score.cp 500⟩, none⟩ : NextMovePair).best.score.blt (Score.cp 200) = false :=
  cook_advantage_retained_pairs env1 9 [] [3] true [([3], 4)]
    [⟨[3], true, ⟨4, Score.cp 500⟩, none⟩] rfl
    ⟨[3], true, ⟨4, Score.cp 500⟩, none⟩ (List.mem_singleton.mpr rfl)

/-- Claim C2 counterexample: with no earlier classification step firing
and the score exactly mate-in-15 — which the claim counts as "mate within
the soon horizon of at most 15 plies" — `analyze_position` does not take
the mate branch (the code's guard is the strict `score > Mate(15)`): the
deduplication server is not consulted and `cook_mate` is not run; the
position falls through to the advantage classification and the score is
returned, although the mate branch would have produced the mate puzzle. -/
theorem analyze_position_mate15_counterexample :
    (¬ env2.legal_count [7] < 2) ∧
    ((Score.cp 300).blt (Score.cp 0) &&
      ((⟨Score.mate 15, true⟩ : PovScore).pov (env2.turn [7])).blt mate_soon) = false ∧
    env2.up_in_material [7] (env2.turn [7]) = false ∧
    ((Score.mate 1).ble ((⟨Score.mate 15, true⟩ : PovScore).pov (env2.turn [7])) &&
      decide ((10 : Int) < 3)) = false ∧
    (⟨Score.mate 15, true⟩ : PovScore).pov (env2.turn [7]) = Score.mate 15 ∧
    env2.is_seen_pos [7] = false ∧
    cook_mate env2 9 [] [7] (env2.turn [7]) = ([([7], 5)], some (some [5])) ∧
    analyze_position env2 9 [] [7] (Score.cp 0) ⟨Score.mate 15, true⟩ 10 =
      ([], some (Sum.inr (Score.mate 15))) ∧
    mate_branch env2 9 [] [7] (env2.turn [7]) (Score.mate 15) 10 =
      ([], some (Sum.inl ⟨[7], [5], 999999999⟩)) :=
  ⟨by decide, rfl, rfl, rfl, rfl, rfl, rfl, rfl, rfl⟩

/-- Claim C2 (amended): when the earlier classification steps do not fire
and the score is a mate strictly within the 15-ply horizon (mate in at
most 14 plies; exactly mate-in-15 instead falls through to the advantage
classification), `analyze_position` takes the mate branch: it consults
the deduplication collaborator, returns the score if the position was
already seen, and otherwise runs `cook_mate`. -/
theorem analyze_position_mate_soon_branch (env : Env) (fuel : Nat) (t : TreeLog)
    (node : Node) (prev_score : Score) (current_eval : PovScore) (tier : Int) (m : Int)
    (h1 : ¬ env.legal_count node < 2)
    (h2 : ((Score.cp 300).blt prev_score &&
      (current_eval.pov (env.turn node)).blt mate_soon) = false)
    (h3 : env.up_in_material node (env.turn node) = false)
    (h4 : ((Score.mate 1).ble (current_eval.pov (env.turn node)) &&
      decide (tier < 3)) = false)
    (h5 : current_eval.pov (env.turn node) = Score.mate m)
    (h6 : 0 < m) (h7 : m < 15) :
    analyze_position env fuel t node prev_score current_eval tier =
      mate_branch env fuel t node (env.turn node) (Score.mate m) tier ∧
    mate_branch env fuel t node (env.turn node) (Score.mate m) tier =
      (if env.is_seen_pos node then (t, some (Sum.inr (Score.mate m)))
       else
         match (cook_mate env fuel t node (env.turn node)).2 with
         | none => (t, none)
         | some none => (t, some (Sum.inr (Score.mate m)))
         | some (some sol) =>
           if tier == 1 && sol.length == 3 then (t, some (Sum.inr (Score.mate m)))
           else (t, some (Sum.inl ⟨node, sol, 999999999⟩))) := by
  constructor
  · have h2m : ((Score.cp 300).blt prev_score && (Score.mate m).blt mate_soon) = false := by
      rw [← h5]
      exact h2
    have h4m : ((Score.mate 1).ble (Score.mate m) && decide (tier < 3)) = false := by
      rw [← h5]
      exact h4
    have hblt : mate_soon.blt (Score.mate m) = true := by
      simp [mate_soon, Score.blt, Score.key, h6]
      omega
    simp only [analyze_position, h5]
    simp [h1, h2m, h3, h4m, hblt]
  · rfl

/-- Claim C2 witness: on `env2` a mate-in-14 score takes the mate branch,
`cook_mate` succeeds with the one-move mate, and the mate puzzle with the
maximal rating sentinel is emitted. -/
theorem analyze_position_mate_soon_branch_witness :
    analyze_position env2 9 [] [7] (Score.cp 0) ⟨Score.mate 14, true⟩ 10 =
      ([], some (Sum.inl ⟨[7], [5], 999999999⟩)) := by
  have h := (analyze_position_mate_soon_branch env2 9 [] [7] (Score.cp 0)
    ⟨Score.mate 14, true⟩ 10 14 (by decide) rfl rfl rfl rfl (by decide) (by decide)).1
  rw [h]
  rfl

/-- Claim C3 counterexample: the third ply of `game3` has no evaluation
annotation, but it is reached while the skip-until-irreversible flag is
set and is skipped without the evaluation check; the game nevertheless
yields a puzzle from its fourth ply, so a missing evaluation does not
always fail the whole game. -/
theorem analyze_game_missing_eval_counterexample :
    game3[2]? = some ⟨3, none⟩ ∧
    analyze_game env3 9 game3 10 = some (some ⟨[1, 2, 3, 4], [9], 999999999⟩) :=
  ⟨rfl, rfl⟩

/-- Claim C3 (amended): if a ply reached with the skip flag off has no
attached evaluation, `analyze_game` fails the whole game — no puzzle,
regardless of the content of the plies that follow (a ply skipped in
skip-until-irreversible mode, however, bypasses the evaluation check). -/
theorem analyze_game_missing_eval_fails (env : Env) (fuel : Nat) (tier : Int)
    (ply : Ply) (rest : List Ply) (t : TreeLog) (prev : Score)
    (seen : List Nat) (board : Node)
    (h : ply.eval = none) :
    analyze_game_loop env fuel tier (ply :: rest) t prev seen board false = some none := by
  simp [analyze_game_loop, h]

/-- Claim C3 witness: a ply without evaluation processed in normal mode
fails the game at once, whatever would have followed. -/
theorem analyze_game_missing_eval_fails_witness :
    analyze_game_loop env3 9 10 [⟨3, none⟩] [] (Score.cp 20) [] [1, 2] false = some none :=
  analyze_game_missing_eval_fails env3 9 10 ⟨3, none⟩ [] [] (Score.cp 20) [] [1, 2] rfl

/-- While the skip-until-irreversible flag is set, a block of plies none
of whose moves is irreversible is walked without any analysis: the loop
result is that of the remaining plies, with the seen-key set untouched
and the flag still set. -/
theorem skip_mode_transparent (env : Env) (fuel : Nat) (tier : Int) :
    ∀ (block rest : List Ply) (t : TreeLog) (prev : Score) (seen : List Nat) (board : Node),
      all_reversible env board block = true →
      analyze_game_loop env fuel tier (block ++ rest) t prev seen board true =
        analyze_game_loop env fuel tier rest t prev seen (board ++ block.map Ply.move) true := by
  intro block
  induction block with
  | nil =>
    intro rest t prev seen board h
    simp
  | cons p ps ih =>
    intro rest t prev seen board h
    simp only [all_reversible, Bool.and_eq_true, Bool.not_eq_eq_eq_not, Bool.not_true] at h
    rcases h with ⟨h1, h2⟩
    rw [List.cons_append]
    rw [show analyze_game_loop env fuel tier (p :: (ps ++ rest)) t prev seen board true =
        analyze_game_loop env fuel tier (ps ++ rest) t prev seen (board ++ [p.move]) true from
      by simp [analyze_game_loop, h1]]
    rw [ih _ _ _ _ _ h2]
    simp [List.append_assoc]

/-- Claim C8: once a canonical position key repeats (the key of the pushed
position is already in the seen set), the loop enters skip mode without
analyzing that ply; while skipping, reversible plies are traversed without
any analysis and without touching the seen-key set; and at the first
irreversible move the seen-key set is cleared, the flag is dropped, and
that ply is processed normally — analysis resumes. -/
theorem analyze_game_skip_mode (env : Env) (fuel : Nat) (tier : Int) :
    (∀ (ply : Ply) (rest : List Ply) (t : TreeLog) (prev : Score) (seen : List Nat)
        (board : Node) (ev : PovScore),
      ply.eval = some ev → env.epd (board ++ [ply.move]) ∈ seen →
      analyze_game_loop env fuel tier (ply :: rest) t prev seen board false =
        analyze_game_loop env fuel tier rest t prev seen (board ++ [ply.move]) true) ∧
    (∀ (block rest : List Ply) (t : TreeLog) (prev : Score) (seen : List Nat) (board : Node),
      all_reversible env board block = true →
      analyze_game_loop env fuel tier (block ++ rest) t prev seen board true =
        analyze_game_loop env fuel tier rest t prev seen (board ++ block.map Ply.move) true) ∧
    (∀ (ply : Ply) (rest : List Ply) (t : TreeLog) (prev : Score) (seen : List Nat)
        (board : Node),
      env.is_irreversible board ply.move = true →
      analyze_game_loop env fuel tier (ply :: rest) t prev seen board true =
        analyze_game_loop env fuel tier (ply :: rest) t prev [] board false) := by
  refine ⟨?_, skip_mode_transparent env fuel tier, ?_⟩
  · intro ply rest t prev seen board ev he hm
    simp [analyze_game_loop, he, hm]
  · intro ply rest t prev seen board h
    simp [analyze_game_loop, h]

/-- Claim C8 witness: on `env3`, exiting skip mode at the irreversible
move `4` clears the seen set (which held the colliding key `0`) and
analysis resumes, producing the mate puzzle of that very ply. -/
theorem analyze_game_skip_mode_witness :
    analyze_game_loop env3 9 10 [⟨4, some ⟨Score.mate 5, true⟩⟩] [] (Score.cp 20)
      [0] [1, 2, 3] true = some (some ⟨[1, 2, 3, 4], [9], 999999999⟩) := by
  rw [(analyze_game_skip_mode env3 9 10).2.2 ⟨4, some ⟨Score.mate 5, true⟩⟩ [] []
    (Score.cp 20) [0] [1, 2, 3] rfl]
  rfl
